import Mathlib

/-!
Shallow embedding of the react-ts-data-fetch application.

The application fetches a list of blog posts, maps each raw record into a
display record, and renders one of three views (loading / error / posts)
from three independent pieces of component state.  The embedding below
follows src/src/App.tsx together with the BlogPosts and ErrorMessage
components; the HTTP helper lives in src/utils/http.ts, which is not among
the sources, so it is modelled from its documentation.
-/

/-- Raw record shape as declared in src/src/App.tsx (RawDataBlogPost).
In the source, id is a number while title, userId and body are declared as
strings; in particular the owner identifier userId is already text, so
converting it to text is the identity. -/
structure RawDataBlogPost where
  id : Int
  title : String
  userId : String
  body : String
  deriving DecidableEq, Repr

/-- Display record shape exported by the BlogPosts component (BlogPost). -/
structure BlogPost where
  id : String
  title : String
  text : String
  deriving DecidableEq, Repr

/-- The per-record mapping used inside fetchPosts in App.tsx: the display
id is taken from the raw userId, the raw id is discarded. -/
def mapRawPost (rawPost : RawDataBlogPost) : BlogPost :=
  { id := rawPost.userId, title := rawPost.title, text := rawPost.body }

/-- The transformer applied to the decoded data in fetchPosts:
data.map over the per-record mapping. -/
def mapToBlogPosts (data : List RawDataBlogPost) : List BlogPost :=
  data.map mapRawPost

/-- A value thrown or rejected at runtime: either an Error instance
carrying a message, or any other value, which the instanceof check in the
catch branch of fetchPosts does not recognize. -/
inductive JsError where
  | errorInstance (message : String)
  | nonError (value : String)
  deriving DecidableEq, Repr

/-- Modelled from the spec: src/utils/http.ts is not among the sources;
its get helper is documented in src/README.md.  A response carries the
transport-level ok flag and the outcome of decoding its body as JSON
(response.json can itself reject). -/
structure HttpResponse (α : Type) where
  ok : Bool
  jsonBody : Except JsError α

namespace Http

/-- Modelled from the spec: the get helper of src/utils/http.ts throws an
Error with the fixed message "Failed to fetch data." when response.ok is
false, and otherwise returns the decoded body unchanged. -/
def get {α : Type} (r : HttpResponse α) : Except JsError α :=
  if r.ok then r.jsonBody
  else Except.error (JsError.errorInstance "Failed to fetch data.")

end Http

/-- The three independent pieces of component state in App.tsx:
fetchedPosts (useState with no initial value), isFetching (initially
false), error (useState with no initial value). -/
structure AppState where
  fetchedPosts : Option (List BlogPost)
  isFetching : Bool
  error : Option String
  deriving DecidableEq, Repr

/-- The initial component state of App.tsx. -/
def initialState : AppState :=
  { fetchedPosts := none, isFetching := false, error := none }

/-- A single state-setter call performed by the effect in App.tsx. -/
inductive Ev where
  | setFetchedPosts (posts : List BlogPost)
  | setError (message : String)
  | setIsFetching (flag : Bool)
  deriving DecidableEq, Repr

/-- Effect of one state-setter call on the component state. -/
def applyEv (s : AppState) : Ev → AppState
  | Ev.setFetchedPosts posts => { s with fetchedPosts := some posts }
  | Ev.setError message => { s with error := some message }
  | Ev.setIsFetching flag => { s with isFetching := flag }

/-- Effect of a sequence of state-setter calls, applied in order. -/
def applyTrace (s : AppState) (t : List Ev) : AppState :=
  t.foldl applyEv s

/-- The sequence of state-setter calls performed by the body of fetchPosts
in App.tsx, given the outcome of awaiting get: on success, store the mapped
posts; on a rejection that is an Error instance, store its message; on any
other rejection, store nothing.  In every case setIsFetching false runs
after the try/catch. -/
def fetchPostsTrace (result : Except JsError (List RawDataBlogPost)) : List Ev :=
  match result with
  | Except.ok data =>
      [Ev.setFetchedPosts (mapToBlogPosts data), Ev.setIsFetching false]
  | Except.error (JsError.errorInstance message) =>
      [Ev.setError message, Ev.setIsFetching false]
  | Except.error (JsError.nonError _) =>
      [Ev.setIsFetching false]

/-- The full sequence of state-setter calls of the effect in App.tsx:
setIsFetching true first, then the calls made by fetchPosts. -/
def effectTrace (result : Except JsError (List RawDataBlogPost)) : List Ev :=
  Ev.setIsFetching true :: fetchPostsTrace result

/-- The component state after the effect has completed. -/
def finalState (result : Except JsError (List RawDataBlogPost)) : AppState :=
  applyTrace initialState (effectTrace result)

/-- The content chosen by the render selection in App.tsx: nothing, the
ErrorMessage view, or the BlogPosts view. -/
inductive Content where
  | noContent
  | errorView (text : String)
  | postsView (posts : List BlogPost)
  deriving DecidableEq, Repr

/-- The rendered output of App.tsx: the early-returned loading indicator,
or the main element wrapping the selected content. -/
inductive Rendered where
  | loadingIndicator
  | mainView (content : Content)
  deriving DecidableEq, Repr

/-- The render selection of App.tsx, in source order: if (error) assigns
the error view (a present but empty message is falsy), if (fetchedPosts)
unconditionally reassigns the posts view (an array is always truthy), and
if (isFetching) early-returns the loading indicator. -/
def render (s : AppState) : Rendered :=
  let content₀ : Content := Content.noContent
  let content₁ : Content :=
    match s.error with
    | some msg => if msg = "" then content₀ else Content.errorView msg
    | none => content₀
  let content₂ : Content :=
    match s.fetchedPosts with
    | some posts => Content.postsView posts
    | none => content₁
  if s.isFetching then Rendered.loadingIndicator
  else Rendered.mainView content₂

/-- The BlogPosts component: a container with a fixed heading and one list
item per post, keyed by the post id and showing its title and text. -/
structure BlogPostsView where
  heading : String
  items : List (String × String × String)
  deriving DecidableEq, Repr

/-- Rendering of the BlogPosts component from its posts prop. -/
def blogPostsView (posts : List BlogPost) : BlogPostsView :=
  { heading := "Blog Posts",
    items := posts.map (fun post => (post.id, post.title, post.text)) }

/-- A component state where the error message and the loaded records are
both set is impossible in a real execution; this is the invariant of claim
C10. -/
def noConflict (s : AppState) : Prop :=
  s.error = none ∨ s.fetchedPosts = none

/-- C1: the transformer produces an output of equal length in the same
order, with output id equal to the raw userId rendered as text (userId is
declared as a string in App.tsx, so the conversion is the identity),
output title equal to the raw title, output text equal to the raw body;
the raw record's own id field does not influence the output. -/
theorem transformer_field_mapping (input : List RawDataBlogPost) :
    (mapToBlogPosts input).length = input.length ∧
    (∀ i : Nat, ((mapToBlogPosts input)[i]?).map BlogPost.id =
      (input[i]?).map RawDataBlogPost.userId) ∧
    (∀ i : Nat, ((mapToBlogPosts input)[i]?).map BlogPost.title =
      (input[i]?).map RawDataBlogPost.title) ∧
    (∀ i : Nat, ((mapToBlogPosts input)[i]?).map BlogPost.text =
      (input[i]?).map RawDataBlogPost.body) ∧
    (∀ raw : RawDataBlogPost, ∀ newId : Int,
      mapRawPost { raw with id := newId } = mapRawPost raw) := by
  refine ⟨by simp [mapToBlogPosts], fun i => ?_, fun i => ?_, fun i => ?_,
    fun raw newId => rfl⟩ <;>
    · simp only [mapToBlogPosts, List.getElem?_map, Option.map_map]
      congr 1

/-- C2: when the in-flight flag is false and both an error message and
loaded records are present, the render selection produces the records
view, not the error view, because the fetchedPosts check reassigns the
content unconditionally after the error check. -/
theorem loaded_overrides_error (s : AppState) (msg : String)
    (posts : List BlogPost) (hf : s.isFetching = false)
    (_he : s.error = some msg) (hp : s.fetchedPosts = some posts) :
    render s = Rendered.mainView (Content.postsView posts) := by
  simp [render, hf, hp]

/-- Witness for C2 at a concrete state holding both an error and posts. -/
theorem loaded_overrides_error_witness :
    render { fetchedPosts := some [], isFetching := false,
             error := some "boom" } =
      Rendered.mainView (Content.postsView []) :=
  loaded_overrides_error _ "boom" [] rfl rfl rfl

/-- C3: on a failure status the get helper rejects with an Error instance
carrying the fixed message "Failed to fetch data.", and its result does
not depend on the decoded body, so the body is never decoded. -/
theorem get_failure_fixed_message (α : Type) (r : HttpResponse α)
    (h : r.ok = false) :
    Http.get r = Except.error (JsError.errorInstance "Failed to fetch data.") ∧
    (∀ b : Except JsError α, Http.get { r with jsonBody := b } = Http.get r) := by
  constructor
  · simp [Http.get, h]
  · intro b
    simp [Http.get, h]

/-- Witness for C3 at a concrete failed response. -/
theorem get_failure_fixed_message_witness :
    Http.get ({ ok := false,
                jsonBody := Except.ok ([] : List RawDataBlogPost) } :
        HttpResponse (List RawDataBlogPost)) =
      Except.error (JsError.errorInstance "Failed to fetch data.") :=
  (get_failure_fixed_message (List RawDataBlogPost)
    { ok := false, jsonBody := Except.ok [] } rfl).1

/-- C4: when the fetch rejects with a value that is not an Error instance,
the catch branch stores nothing: the final state has no error message and
no records, the loading flag is still cleared, and the render is the
blank no-content branch. -/
theorem unrecognized_failure_swallowed (v : String) :
    (finalState (Except.error (JsError.nonError v))).error = none ∧
    (finalState (Except.error (JsError.nonError v))).fetchedPosts = none ∧
    (finalState (Except.error (JsError.nonError v))).isFetching = false ∧
    render (finalState (Except.error (JsError.nonError v))) =
      Rendered.mainView Content.noContent := by
  refine ⟨rfl, rfl, rfl, ?_⟩
  simp [finalState, effectTrace, fetchPostsTrace, applyTrace, applyEv,
    initialState, render]

/-- C5: for every outcome of the fetch, the state-setter calls of
fetchPosts end with setIsFetching false, and every earlier call stores
either the records or the error message: the loading flag is cleared
last. -/
theorem loading_cleared_last (result : Except JsError (List RawDataBlogPost)) :
    ∃ pre : List Ev,
      fetchPostsTrace result = pre ++ [Ev.setIsFetching false] ∧
      ∀ e ∈ pre, (∃ posts, e = Ev.setFetchedPosts posts) ∨
        (∃ m, e = Ev.setError m) := by
  match result with
  | Except.ok data =>
      refine ⟨[Ev.setFetchedPosts (mapToBlogPosts data)], rfl, ?_⟩
      intro e he
      simp only [List.mem_singleton] at he
      exact Or.inl ⟨mapToBlogPosts data, he⟩
  | Except.error (JsError.errorInstance m) =>
      refine ⟨[Ev.setError m], rfl, ?_⟩
      intro e he
      simp only [List.mem_singleton] at he
      exact Or.inr ⟨m, he⟩
  | Except.error (JsError.nonError v) =>
      exact ⟨[], rfl, by simp⟩

/-- C6: whenever the in-flight flag is true, the render selection
early-returns the loading indicator, whatever the other state holds. -/
theorem fetching_renders_loading (s : AppState) (h : s.isFetching = true) :
    render s = Rendered.loadingIndicator := by
  simp [render, h]

/-- Witness for C6 at a concrete state that also holds an error and
posts. -/
theorem fetching_renders_loading_witness :
    render { fetchedPosts := some [], isFetching := true,
             error := some "e" } = Rendered.loadingIndicator :=
  fetching_renders_loading _ rfl

/-- C7: when the network call resolves with the empty array, the final
render is the posts container with zero list items, not the blank
no-content branch. -/
theorem empty_result_renders_posts :
    render (finalState (Except.ok [])) =
      Rendered.mainView (Content.postsView []) ∧
    (blogPostsView []).items = [] ∧
    (blogPostsView []).heading = "Blog Posts" := by
  refine ⟨?_, rfl, rfl⟩
  simp [finalState, effectTrace, fetchPostsTrace, mapToBlogPosts,
    applyTrace, applyEv, initialState, render]

/-- C8: on a success status with a decoded array body, the get helper
resolves with exactly that array: nothing filtered, nothing added, order
preserved. -/
theorem get_success_unchanged (elems : List RawDataBlogPost)
    (r : HttpResponse (List RawDataBlogPost)) (hok : r.ok = true)
    (hbody : r.jsonBody = Except.ok elems) :
    Http.get r = Except.ok elems := by
  simp [Http.get, hok, hbody]

/-- Witness for C8 at a concrete successful response with a one-element
array. -/
theorem get_success_unchanged_witness :
    Http.get ({ ok := true,
                jsonBody := Except.ok
                  [{ id := 1, title := "T", userId := "7", body := "B" }] } :
        HttpResponse (List RawDataBlogPost)) =
      Except.ok [{ id := 1, title := "T", userId := "7", body := "B" }] :=
  get_success_unchanged [{ id := 1, title := "T", userId := "7", body := "B" }]
    { ok := true,
      jsonBody := Except.ok
        [{ id := 1, title := "T", userId := "7", body := "B" }] } rfl rfl

/-- C9: the transformer is a pure, deterministic, total function: it is
defined for every input list with no error path, and two invocations on
equal inputs produce structurally equal outputs. -/
theorem transformer_deterministic (input₁ input₂ : List RawDataBlogPost)
    (h : input₁ = input₂) :
    mapToBlogPosts input₁ = mapToBlogPosts input₂ := by
  rw [h]

/-- Witness for C9 at a concrete one-element input. -/
theorem transformer_deterministic_witness :
    mapToBlogPosts [{ id := 1, title := "T", userId := "7", body := "B" }] =
      mapToBlogPosts [{ id := 1, title := "T", userId := "7", body := "B" }] :=
  transformer_deterministic _ _ rfl

/-- C10: in every state reachable along an actual execution of the effect
(every prefix of its state-setter trace applied to the initial state), the
error message and the loaded records are never both set, so the
loaded-overrides-error render branch is unreachable in real executions. -/
theorem reachable_states_no_conflict
    (result : Except JsError (List RawDataBlogPost)) (n : Nat) :
    noConflict (applyTrace initialState ((effectTrace result).take n)) := by
  rcases result with e | data
  · rcases e with m | v
    · rcases n with _ | _ | _ | n <;>
        simp [noConflict, effectTrace, fetchPostsTrace, applyTrace, applyEv,
          initialState, List.take]
    · rcases n with _ | _ | _ | n <;>
        simp [noConflict, effectTrace, fetchPostsTrace, applyTrace, applyEv,
          initialState, List.take]
  · rcases n with _ | _ | _ | n <;>
      simp [noConflict, effectTrace, fetchPostsTrace, applyTrace, applyEv,
        initialState, List.take]
